import Mathlib

/-!
Shallow embedding of `src/app.py` (StudyBot).

The embedding covers the data model (`User`, `Fact`, `ConvoState`), the
fact-store operations (`create_fact`, `update_fact`, `delete_fact`,
`upsert_fact`, `get_fact`), the cache serialization
(`ConvoState.serialize` / `restore_convo_state`), the NLP adapter
(`get_strongest_intent`, `msg_contains_greeting`, `get_nlp_duration`)
and the per-event state-machine dispatch of `handle_messages`
(`handle_event`).

Modelling conventions:
* Python `None`-able attributes become `Option`.
* SQLAlchemy transient `Fact` objects (all attributes optional) are the
  structure `Fact`; committed rows (id assigned, `answer` NOT NULL) are
  `StoredFact`.
* `datetime` objects are represented by their `isoformat()` string
  (the only operations the source applies to them are `isinstance`
  checks and `isoformat()`), wrapped in the `LastSeen` type which
  distinguishes `None` / `datetime` / `str` as Python does.
* wit.ai confidences are real numbers compared against a threshold;
  they are modelled as `ℚ` (only order comparisons occur).
* Store mutations that raise inside `try`/`except` in the source return
  `false` and leave the store unchanged (failed commit = rollback).
* A code path that would raise an uncaught Python exception is modelled
  by `Option.none` at the function's result.

Everything lives in the `StudyBot` namespace (the source's `Fact` would
otherwise collide with a library name).
-/

namespace StudyBot

/-- The conversation states (`class State(enum.Enum)`, app.py 138-145). -/
inductive State where
  | DEFAULT
  | WAITING_FOR_FACT_QUESTION
  | WAITING_FOR_FACT_ANSWER
  | WAITING_FOR_FACT_TO_CHANGE
  | WAITING_FOR_FACT_TO_DELETE
  | CONFIRM_FACT_DELETE
  | WAITING_FOR_SILENCE_DURATION
deriving DecidableEq, Repr

/-- The numeric `value` of each enum member (`State.DEFAULT = 0`, ...). -/
def State.value : State → Nat
  | .DEFAULT => 0
  | .WAITING_FOR_FACT_QUESTION => 1
  | .WAITING_FOR_FACT_ANSWER => 2
  | .WAITING_FOR_FACT_TO_CHANGE => 3
  | .WAITING_FOR_FACT_TO_DELETE => 4
  | .CONFIRM_FACT_DELETE => 5
  | .WAITING_FOR_SILENCE_DURATION => 6

/-- Python `State(v)`: look an enum member up by value (raises on an
unknown value, hence `Option`). -/
def State.ofValue : Nat → Option State
  | 0 => some .DEFAULT
  | 1 => some .WAITING_FOR_FACT_QUESTION
  | 2 => some .WAITING_FOR_FACT_ANSWER
  | 3 => some .WAITING_FOR_FACT_TO_CHANGE
  | 4 => some .WAITING_FOR_FACT_TO_DELETE
  | 5 => some .CONFIRM_FACT_DELETE
  | 6 => some .WAITING_FOR_SILENCE_DURATION
  | _ => none

/-- A value held in a `Fact.last_seen` attribute: Python `None`, a
`datetime` (carried as its `isoformat()` string), or a plain `str`
(what cache deserialization writes back, app.py 384). -/
inductive LastSeen where
  | null
  | dt (iso : String)
  | str (s : String)
deriving DecidableEq, Repr

/-- A transient SQLAlchemy `Fact` object (app.py 54-65): before a flush
every attribute may be unset (`None`).  `Fact(user_id=u)` is
`{ user_id := some u }`. -/
structure Fact where
  id : Option Nat := none
  user_id : Option Nat := none
  question : Option String := none
  answer : Option String := none
  confidence : Option Int := none
  last_seen : LastSeen := .null
deriving DecidableEq, Repr

/-- `Fact(user_id=u)` — the empty draft created at app.py 93, 242, 305. -/
def Fact_new (u : Nat) : Fact := { user_id := some u }

/-- A committed `facts` row: `id` assigned by the store, `user_id` and
`answer` NOT NULL, `question` nullable, `confidence` nullable,
`last_seen` NOT NULL (held as the datetime's isoformat string). -/
structure StoredFact where
  id : Nat
  user_id : Nat
  question : Option String
  answer : String
  confidence : Option Int
  last_seen : String
deriving DecidableEq, Repr

/-- A `users` row (app.py 25-32). -/
structure UserRec where
  id : Nat
  fb_id : String
deriving DecidableEq, Repr

/-- The relational store: `users` and `facts` tables in insertion order,
plus the next primary key the `facts` table will assign. -/
structure Store where
  users : List UserRec
  facts : List StoredFact
  next_id : Nat
deriving DecidableEq, Repr

/-- The `check_confidence` CHECK constraint (app.py 64):
`confidence >= 0 AND confidence <= 5`.  SQL CHECK passes on NULL. -/
def check_confidence : Option Int → Bool
  | none => true
  | some c => decide (0 ≤ c ∧ c ≤ 5)

/-- The uniqueness constraint actually declared on `question`
(app.py 58: `db.Column(db.String, unique=True)`): table-wide and
case-sensitive.  The `(user_id, lower(question))` index at app.py 63 is
a plain `db.Index`, not a unique constraint, so it rejects nothing.
SQL unique constraints ignore NULLs. -/
def question_conflict (store : Store) (q : Option String) : Bool :=
  match q with
  | none => false
  | some s => store.facts.any (fun f => f.question == some s)

/-- Like `question_conflict` but ignoring the row being updated (a row
may keep its own question). -/
def question_conflict_except (store : Store) (u n : Nat) (q : Option String) : Bool :=
  match q with
  | none => false
  | some s => store.facts.any (fun f =>
      !(f.user_id == u && f.id == n) && f.question == some s)

/-- The datetime a committed row carries in `last_seen`: the draft's
value if set, else the column default `datetime.utcnow` (app.py 61). -/
def commit_last_seen (l : LastSeen) (now_iso : String) : String :=
  match l with
  | .null => now_iso
  | .dt s => s
  | .str s => s

/-- The foreign key `user_id → users.id` (app.py 57,
`db.ForeignKey('users.id')`): the referenced `users` row must exist. -/
def user_exists (store : Store) (u : Nat) : Bool :=
  store.users.any (fun ur => ur.id == u)

/-- `create_fact()` (app.py 552-561): commit the draft as a new row;
any constraint violation (NOT NULL on `user_id`/`answer`, the
`user_id → users.id` foreign key, the global unique `question`,
`check_confidence`) is caught and reported as `false` with the store
unchanged. -/
def create_fact (draft : Fact) (store : Store) (now_iso : String) : Bool × Store :=
  match draft.user_id, draft.answer with
  | some u, some a =>
    if user_exists store u && check_confidence draft.confidence &&
        !question_conflict store draft.question then
      (true,
        { store with
            facts := store.facts ++
              [{ id := store.next_id, user_id := u, question := draft.question,
                 answer := a, confidence := draft.confidence,
                 last_seen := commit_last_seen draft.last_seen now_iso }],
            next_id := store.next_id + 1 })
    else (false, store)
  | _, _ => (false, store)

/-- `update_fact(fact_id)` (app.py 570-581): load the current user's row
with the given id via `.one()` (raises when absent → `false`), set its
`question` and `answer` from the draft, and commit; a failed commit
(NULL `answer`, duplicate `question`) is caught as `false`. -/
def update_fact (u : Nat) (draft : Fact) (n : Nat) (store : Store) : Bool × Store :=
  match store.facts.filter (fun f => f.user_id == u && f.id == n) with
  | [_] =>
    match draft.answer with
    | none => (false, store)
    | some a =>
      if question_conflict_except store u n draft.question then (false, store)
      else
        (true,
          { store with
              facts := store.facts.map (fun g =>
                if g.user_id == u && g.id == n then
                  { g with question := draft.question, answer := a }
                else g) })
  | _ => (false, store)

/-- Python truthiness of an optional integer (`if fact_id:`): `None`
and `0` are falsy. -/
def py_truthy_optnat : Option Nat → Bool
  | none => false
  | some n => n != 0

/-- Python truthiness of an optional number
(`if (duration_seconds):`): `None` and `0` are falsy. -/
def py_truthy_qopt : Option ℚ → Bool
  | none => false
  | some d => d != 0

/-- `upsert_fact(fact_id)` (app.py 564-567): a truthy id updates,
otherwise create. -/
def upsert_fact (u : Nat) (draft : Fact) (store : Store) (now_iso : String)
    (fact_id : Option Nat) : Bool × Store :=
  if py_truthy_optnat fact_id then update_fact u draft (fact_id.getD 0) store
  else create_fact draft store now_iso

/-- `delete_fact(fact_id)` (app.py 602-612): load the current user's row
with `.one()` (raises when absent, also when `fact_id` is `None`, both
caught → `false`) and delete it. -/
def delete_fact (u : Nat) (fid : Option Nat) (store : Store) : Bool × Store :=
  match fid with
  | none => (false, store)
  | some n =>
    match store.facts.filter (fun f => f.user_id == u && f.id == n) with
    | [_] =>
      (true, { store with facts := store.facts.filter (fun f => !(f.user_id == u && f.id == n)) })
    | _ => (false, store)

/-- Digits-only parse used by `py_int`. -/
def parseDigits (cs : List Char) : Option Nat :=
  if cs ≠ [] && cs.all (·.isDigit) then
    some (cs.foldl (fun a c => a * 10 + (c.toNat - 48)) 0)
  else none

/-- Python `str.strip()` on a character list: drop leading and trailing
whitespace. -/
def py_strip (cs : List Char) : List Char :=
  ((cs.dropWhile Char.isWhitespace).reverse.dropWhile Char.isWhitespace).reverse

/-- Python `int(s)` on a string: strip whitespace, allow one sign, then
decimal digits; anything else raises `ValueError` (modelled as `none`).
(Digit-group underscores and non-ASCII digits are not modelled; no
message the claims touch uses them.) -/
def py_int (s : String) : Option Int :=
  match py_strip s.data with
  | [] => none
  | '+' :: rest => (parseDigits rest).map Int.ofNat
  | '-' :: rest => (parseDigits rest).map (fun n => -(n : Int))
  | cs => (parseDigits cs).map Int.ofNat

/-- Python `str.lower()`: per-character lowercasing (the confirmation
words it is compared against are ASCII). -/
def py_lower (s : String) : String :=
  String.mk (s.data.map Char.toLower)

/-- SQLAlchemy `one_or_none()` on a result list: `none` models the
`MultipleResultsFound` exception (uncaught in `get_fact`), otherwise the
optional row. -/
def one_or_none {α : Type} (l : List α) : Option (Option α) :=
  match l with
  | [] => some none
  | [a] => some (some a)
  | _ => none

/-- `get_fact(fact_id)` (app.py 584-599): try `int(...)` on the message
first; on success look the fact up by id, on `ValueError` fall back to
an exact question-text match.  Both queries filter by
`user_id=current_user.user_id`. -/
def get_fact (u : Nat) (msg : String) (store : Store) : Option (Option StoredFact) :=
  match py_int msg with
  | some i => one_or_none (store.facts.filter (fun f => f.user_id == u && (f.id : Int) == i))
  | none => one_or_none (store.facts.filter (fun f => f.user_id == u && f.question == some msg))

/-- `get_user(user_id)` (app.py 521-522): look a user up by `fb_id`. -/
def get_user (store : Store) (sender : String) : Option UserRec :=
  match store.users.filter (fun u => u.fb_id == sender) with
  | [u] => some u
  | _ => none

/-- The `user.facts` relationship: that user's rows in insertion order. -/
def get_user_facts (store : Store) (uid : Nat) : List StoredFact :=
  store.facts.filter (fun f => f.user_id == uid)

/-- Python `"%s" % x` for an optional string: `None` prints as "None". -/
def py_str_opt : Option String → String
  | none => "None"
  | some s => s

/-- Python `"%s" % x` for an optional integer. -/
def py_str_int_opt : Option Int → String
  | none => "None"
  | some c => toString c

/-- Stand-in for the `"{:%B %d, %Y}".format(last_seen)` rendering at
app.py 627; no claim depends on the rendering, only on which rows are
listed. -/
def py_format_date (s : String) : String := s

/-- Stand-in for `str(datetime.fromtimestamp(t))` (app.py 253-254);
no claim depends on the rendering. -/
def py_str_datetime (t : ℚ) : String := toString t

/-- One fact's block inside `get_facts_for_display` (app.py 621-627). -/
def fact_display (f : StoredFact) (include_confidence_and_last_seen : Bool) : String :=
  "Id: " ++ toString f.id ++ "\n" ++
  "Question: " ++ py_str_opt f.question ++ "\n" ++
  "Answer: " ++ f.answer ++ "\n" ++
  (if include_confidence_and_last_seen then
    "Confidence: " ++ py_str_int_opt f.confidence ++ "\n" ++
    "Last Seen: " ++ py_format_date f.last_seen ++ "\n\n"
  else "")

/-- `get_facts_for_display(sender_id, ...)` (app.py 619-628); `none`
models the `AttributeError` when the sender has no `users` row. -/
def get_facts_for_display (sender : String) (include_confidence_and_last_seen : Bool)
    (store : Store) : Option String :=
  (get_user store sender).map (fun u =>
    ((get_user_facts store u.id).map (fun f => fact_display f include_confidence_and_last_seen)).foldl
      (fun a b => a ++ b) "")

/-- The in-flight conversation snapshot (`class ConvoState`, app.py 90-103). -/
structure ConvoState where
  user_id : Nat
  tmp_fact : Fact
  state : State
deriving DecidableEq, Repr

/-- `ConvoState(user_id, state=None)` (app.py 91-94). -/
def ConvoState.init (u : Nat) (st : Option State) : ConvoState :=
  { user_id := u, tmp_fact := Fact_new u, state := st.getD State.DEFAULT }

/-- The JSON shape of a serialized draft fact (app.py 73-80). -/
structure SerializedFact where
  id : Option Nat
  user_id : Option Nat
  question : Option String
  answer : Option String
  confidence : Option Int
  last_seen : Option String
deriving DecidableEq, Repr

/-- `serialize_date_time` (app.py 82-85): a `datetime` becomes its
isoformat string, anything else becomes `None`. -/
def serialize_date_time : LastSeen → Option String
  | .dt iso => some iso
  | _ => none

/-- The `Fact.serialize` property (app.py 70-80). -/
def Fact.serialize (f : Fact) : SerializedFact :=
  { id := f.id, user_id := f.user_id, question := f.question,
    answer := f.answer, confidence := f.confidence,
    last_seen := serialize_date_time f.last_seen }

/-- The JSON shape of a cached conversation state (app.py 96-103). -/
structure SerializedConvo where
  user_id : Nat
  tmp_fact : SerializedFact
  state_val : Nat
deriving DecidableEq, Repr

/-- The `ConvoState.serialize` property (app.py 96-103). -/
def ConvoState.serialize (cs : ConvoState) : SerializedConvo :=
  { user_id := cs.user_id, tmp_fact := cs.tmp_fact.serialize,
    state_val := cs.state.value }

/-- The cache-hit arm of `restore_convo_state` (app.py 374-384):
rebuild a `ConvoState` from the JSON dict; the `state` value goes
through `State(...)` (raises on an unknown value), and `last_seen`
comes back as whatever JSON held — a `str` or `None`, never a
`datetime`. -/
def restore_cached (t : SerializedConvo) : Option ConvoState :=
  (State.ofValue t.state_val).map (fun st =>
    { user_id := t.user_id,
      state := st,
      tmp_fact :=
        { id := t.tmp_fact.id, user_id := t.tmp_fact.user_id,
          question := t.tmp_fact.question, answer := t.tmp_fact.answer,
          confidence := t.tmp_fact.confidence,
          last_seen := match t.tmp_fact.last_seen with
            | some s => .str s
            | none => .null } })

/-- `restore_convo_state(sender_id)` (app.py 368-385): a cache miss
(absent or expired entry) rebuilds `ConvoState(user.id, State.DEFAULT)`
from the store's `users` row (`none` models the crash when the user row
is also absent); a cache hit deserializes the snapshot. -/
def restore_convo_state (cacheEntry : Option SerializedConvo)
    (storeUser : Option UserRec) : Option ConvoState :=
  match cacheEntry with
  | none => storeUser.map (fun u => ConvoState.init u.id (some State.DEFAULT))
  | some t => restore_cached t

/-- One wit.ai candidate: `{value, confidence}`. -/
structure Candidate where
  value : String
  confidence : ℚ
deriving DecidableEq, Repr

/-- One wit.ai duration candidate: `{confidence, normalized: {value}}`. -/
structure DurCandidate where
  confidence : ℚ
  normalized_value : ℚ
deriving DecidableEq, Repr

/-- The NLP entity map attached to a message (`nlp["entities"]`); a
key absent from the dict is `none`. -/
structure NlpEntities where
  intent : Option (List Candidate) := none
  greetings : Option (List Candidate) := none
  duration : Option (List DurCandidate) := none
deriving DecidableEq, Repr

/-- `MIN_CONFIDENCE_THRESHOLD = 0.7` (app.py 122), written as the
rational 7/10 in lowest terms so that the kernel can evaluate
comparisons against it; `MIN_CONFIDENCE_THRESHOLD_eq` below checks the
value. -/
def MIN_CONFIDENCE_THRESHOLD : ℚ := ⟨7, 10, by decide, by decide⟩

/-- `CACHE_EXPIRATION_IN_SECONDS` (app.py 125). -/
def CACHE_EXPIRATION_IN_SECONDS : Nat := 300

/-- `CONFIRMATIONS` (app.py 128-133). -/
def CONFIRMATIONS : List String := ["yes", "yea", "yep", "y"]

/-- `get_strongest_intent` (app.py 419-430): iterate the dict's keys;
for the `intent` key read candidate `[0]`'s confidence and, when it
beats the threshold, its value.  Candidates past index 0 are never
read.  An `intent` key holding an empty list raises `IndexError`
(`none`). -/
def get_strongest_intent (e : NlpEntities) (min_conf_threshold : ℚ) : Option String :=
  match e.intent with
  | none => some "default_intent"
  | some [] => none
  | some (c :: _) =>
    some (if min_conf_threshold < c.confidence then c.value else "default_intent")

/-- Model of the SPEC'S words for intent selection (section 4.3 /
claim C3): "select the single highest-confidence one that clears the
threshold; if none clears it, yield a sentinel default_intent". -/
def strongest_intent_spec (e : NlpEntities) (min_conf_threshold : ℚ) : String :=
  match e.intent with
  | none => "default_intent"
  | some cs =>
    match (cs.filter (fun c => min_conf_threshold < c.confidence)).foldl
        (fun acc c =>
          match acc with
          | none => some c
          | some b => if b.confidence < c.confidence then some c else some b)
        none with
    | some c => c.value
    | none => "default_intent"

/-- `msg_contains_greeting` (app.py 409-416): a present, nonempty
`greetings` entity whose first candidate beats the threshold. -/
def msg_contains_greeting (e : NlpEntities) (min_conf_threshold : ℚ) : Bool :=
  match e.greetings with
  | some (c :: _) => decide (min_conf_threshold < c.confidence)
  | _ => false

/-- `get_nlp_duration` (app.py 355-366): a present, nonempty `duration`
entity whose first candidate beats the threshold yields its normalized
value in seconds. -/
def get_nlp_duration (e : NlpEntities) (min_conf_threshold : ℚ) : Option ℚ :=
  match e.duration with
  | some (d :: _) =>
    if min_conf_threshold < d.confidence then some d.normalized_value else none
  | _ => none

/-- One `cache.set` + `cache.expire` pair (app.py 393-394). -/
structure CacheWrite where
  key : String
  payload : SerializedConvo
  ttl : Nat
deriving DecidableEq, Repr

/-- `set_convo_state(sender_id, new_state)` (app.py 388-394): set the
state on the in-flight snapshot and write its serialization to the
cache with the 300-second TTL. -/
def set_convo_state (sender : String) (cs : ConvoState) (st : State) :
    ConvoState × List CacheWrite :=
  ({ cs with state := st },
   [{ key := sender, payload := ConvoState.serialize { cs with state := st },
      ttl := CACHE_EXPIRATION_IN_SECONDS }])

/-- What one state-machine dispatch of `handle_messages` produces:
the `bot_msg` reply, the final in-flight snapshot (`current_user`),
the resulting store, and the cache writes performed. -/
structure StepResult where
  bot_msg : String
  convo : ConvoState
  store : Store
  cache_writes : List CacheWrite
deriving DecidableEq, Repr

/-- The step result the `CONFIRM_FACT_DELETE` branch produces: draft
reset to `Fact(user_id=...)`, state back to `DEFAULT`, one cache write
with the standard TTL (used to state the branch's behavior). -/
def confirm_result (sender : String) (u : Nat) (bot : String) (store' : Store) : StepResult :=
  { bot_msg := bot,
    convo := { user_id := u, tmp_fact := Fact_new u, state := State.DEFAULT },
    store := store',
    cache_writes :=
      [{ key := sender,
         payload := ConvoState.serialize
           { user_id := u, tmp_fact := Fact_new u, state := State.DEFAULT },
         ttl := CACHE_EXPIRATION_IN_SECONDS }] }

/-- The per-event state dispatch of `handle_messages` (app.py 228-337),
entered after `restore_convo_state` for a known sender.  `msg` is the
decoded message text, `now` the Unix timestamp `time.time()` would
return, `now_iso` the isoformat of `datetime.utcnow()` used as the
`last_seen` column default.  `none` models an uncaught exception.

The greeting branch sends its phrase directly through
`send_greeting_message` (randomized, outbound I/O); only the `bot_msg`
accumulator — empty on that branch — is recorded here. -/
def handle_event (sender : String) (msg : String) (nlp : NlpEntities)
    (cs : ConvoState) (store : Store) (now : ℚ) (now_iso : String) :
    Option StepResult :=
  match cs.state with
  | State.DEFAULT =>
    if msg_contains_greeting nlp MIN_CONFIDENCE_THRESHOLD then
      some { bot_msg := "", convo := cs, store := store, cache_writes := [] }
    else
      match get_strongest_intent nlp MIN_CONFIDENCE_THRESHOLD with
      | none => none
      | some strongest_intent =>
        if strongest_intent == "add_fact" then
          let sc := set_convo_state sender { cs with tmp_fact := Fact_new cs.user_id }
            State.WAITING_FOR_FACT_QUESTION
          some { bot_msg := "Ok, let's add that new fact. What is the question?",
                 convo := sc.1, store := store, cache_writes := sc.2 }
        else if strongest_intent == "change_fact" then
          match get_facts_for_display sender false store with
          | none => none
          | some listing =>
            let sc := set_convo_state sender cs State.WAITING_FOR_FACT_TO_CHANGE
            some { bot_msg := "Ok, which fact do you want to change?\n" ++ listing,
                   convo := sc.1, store := store, cache_writes := sc.2 }
        else if strongest_intent == "silence_studying" then
          match get_nlp_duration nlp MIN_CONFIDENCE_THRESHOLD with
          | some d =>
            if d == 0 then
              let sc := set_convo_state sender cs State.WAITING_FOR_SILENCE_DURATION
              some { bot_msg := "Ok, how long do you want to silence notifications for?",
                     convo := sc.1, store := store, cache_writes := sc.2 }
            else
              some { bot_msg := "Ok, silencing study notifications until " ++
                       py_str_datetime (now + d) ++ ".",
                     convo := cs, store := store, cache_writes := [] }
          | none =>
            let sc := set_convo_state sender cs State.WAITING_FOR_SILENCE_DURATION
            some { bot_msg := "Ok, how long do you want to silence notifications for?",
                   convo := sc.1, store := store, cache_writes := sc.2 }
        else if strongest_intent == "view_facts" then
          match get_facts_for_display sender true store with
          | none => none
          | some listing =>
            some { bot_msg := "Ok, here are the facts we have.\n" ++ listing,
                   convo := cs, store := store, cache_writes := [] }
        else if strongest_intent == "delete_fact" then
          match get_facts_for_display sender false store with
          | none => none
          | some listing =>
            let sc := set_convo_state sender cs State.WAITING_FOR_FACT_TO_DELETE
            some { bot_msg := "Ok, which fact do you want to delete?\n" ++ listing,
                   convo := sc.1, store := store, cache_writes := sc.2 }
        else if strongest_intent == "study_next_fact" then
          some { bot_msg := "", convo := cs, store := store, cache_writes := [] }
        else if strongest_intent == "default_intent" then
          let sc := set_convo_state sender cs State.DEFAULT
          some { bot_msg := "I'm not sure what you mean.",
                 convo := sc.1, store := store, cache_writes := sc.2 }
        else
          some { bot_msg := "", convo := cs, store := store, cache_writes := [] }
  | State.WAITING_FOR_FACT_TO_CHANGE =>
    match get_fact cs.user_id msg store with
    | none => none
    | some none =>
      let sc := set_convo_state sender cs State.DEFAULT
      some { bot_msg := "Whoops! We don't have a fact for you. Try viewing your facts to get the ID.",
             convo := sc.1, store := store, cache_writes := sc.2 }
    | some (some f) =>
      let sc := set_convo_state sender
        { cs with tmp_fact :=
            { id := some f.id, user_id := some f.user_id, question := f.question,
              answer := some f.answer, confidence := f.confidence,
              last_seen := .dt f.last_seen } }
        State.WAITING_FOR_FACT_QUESTION
      some { bot_msg := "Ok, let's update that new fact. What is the question?",
             convo := sc.1, store := store, cache_writes := sc.2 }
  | State.WAITING_FOR_FACT_TO_DELETE =>
    match get_fact cs.user_id msg store with
    | none => none
    | some none =>
      let sc := set_convo_state sender cs State.DEFAULT
      some { bot_msg := "Whoops! We don't have a fact for you. Try viewing your facts to get the ID.",
             convo := sc.1, store := store, cache_writes := sc.2 }
    | some (some f) =>
      let sc := set_convo_state sender
        { cs with tmp_fact :=
            { id := some f.id, user_id := some f.user_id, question := f.question,
              answer := some f.answer, confidence := f.confidence,
              last_seen := .dt f.last_seen } }
        State.CONFIRM_FACT_DELETE
      some { bot_msg := "Are you sure you want to delete this fact?\n" ++
               "Question: " ++ py_str_opt f.question ++ "\n" ++
               "Answer: " ++ f.answer,
             convo := sc.1, store := store, cache_writes := sc.2 }
  | State.CONFIRM_FACT_DELETE =>
    if py_lower msg ∈ CONFIRMATIONS then
      let r := delete_fact cs.user_id cs.tmp_fact.id store
      let sc := set_convo_state sender { cs with tmp_fact := Fact_new cs.user_id }
        State.DEFAULT
      some { bot_msg := if r.1 then "Fact deleted successfully." else "Failed to delete fact.",
             convo := sc.1, store := r.2, cache_writes := sc.2 }
    else
      let sc := set_convo_state sender { cs with tmp_fact := Fact_new cs.user_id }
        State.DEFAULT
      some { bot_msg := "Failed to delete fact.",
             convo := sc.1, store := store, cache_writes := sc.2 }
  | State.WAITING_FOR_FACT_QUESTION =>
    let sc := set_convo_state sender
      { cs with tmp_fact :=
          { cs.tmp_fact with user_id := some cs.user_id, question := some msg } }
      State.WAITING_FOR_FACT_ANSWER
    some { bot_msg := "Thanks, what's the answer to that question?",
           convo := sc.1, store := store, cache_writes := sc.2 }
  | State.WAITING_FOR_FACT_ANSWER =>
    let draft : Fact := { cs.tmp_fact with answer := some msg }
    let added_update := if py_truthy_optnat draft.id then "update" else "create"
    let r := upsert_fact cs.user_id draft store now_iso draft.id
    let draft' :=
      if r.1 && !py_truthy_optnat draft.id then
        { draft with id := some store.next_id,
                     last_seen := .dt (commit_last_seen draft.last_seen now_iso) }
      else draft
    let sc := set_convo_state sender { cs with tmp_fact := draft' } State.DEFAULT
    some { bot_msg :=
             if r.1 then
               "Ok, I " ++ added_update ++ "d the following question and answer:\n" ++
               "Question: " ++ py_str_opt draft.question ++ "\n" ++
               "Answer: " ++ msg
             else "We couldn't " ++ added_update ++ " that fact.",
           convo := sc.1, store := r.2, cache_writes := sc.2 }
  | State.WAITING_FOR_SILENCE_DURATION =>
    let bot :=
      match get_nlp_duration nlp MIN_CONFIDENCE_THRESHOLD with
      | some d =>
        if d == 0 then "Sorry, I couldn't get a duration from that."
        else "Ok, silencing study notifications until " ++ py_str_datetime (now + d) ++ "."
      | none => "Sorry, I couldn't get a duration from that."
    let sc := set_convo_state sender cs State.DEFAULT
    some { bot_msg := bot, convo := sc.1, store := store, cache_writes := sc.2 }

/-- Which non-greeting DEFAULT-state branches of `handle_messages` call
`set_convo_state` (and hence write the cache): `add_fact` (243),
`change_fact` (247), `delete_fact` (265), `default_intent` (272), and
`silence_studying` when no truthy duration is present (258); the
`view_facts`, truthy-duration `silence_studying`, `study_next_fact` and
unrecognized-intent branches write nothing. -/
def default_branch_persists (nlp : NlpEntities) (strongest_intent : String) : Bool :=
  strongest_intent == "add_fact" || strongest_intent == "change_fact" ||
  strongest_intent == "delete_fact" || strongest_intent == "default_intent" ||
  (strongest_intent == "silence_studying" &&
    !py_truthy_qopt (get_nlp_duration nlp MIN_CONFIDENCE_THRESHOLD))

/-!  Concrete inputs used by witnesses and counterexamples. -/

/-- A small store: two users, one fact owned by user 1. -/
def stW : Store :=
  { users := [⟨1, "s1"⟩, ⟨2, "s2"⟩],
    facts := [⟨1, 1, some "What is 2+2?", "4", some 3, "2020-01-01T00:00:00"⟩],
    next_id := 2 }

/-- User 1 mid-deletion: state `CONFIRM_FACT_DELETE`, draft loaded with
the stored fact id 1. -/
def csW1 : ConvoState :=
  { user_id := 1,
    tmp_fact := { id := some 1, user_id := some 1, question := some "What is 2+2?",
                  answer := some "4", confidence := some 3,
                  last_seen := .dt "2020-01-01T00:00:00" },
    state := .CONFIRM_FACT_DELETE }

/-- A draft carrying a pre-existing identifier (the change-fact path). -/
def draft4 : Fact :=
  { id := some 1, user_id := some 1, question := some "Q2", answer := some "A2" }

/-- An intent candidate with value "a" and confidence 4/5. -/
def cand_a : Candidate := ⟨"a", ⟨4, 5, by decide, by decide⟩⟩

/-- An intent candidate with value "b" and confidence 9/10. -/
def cand_b : Candidate := ⟨"b", ⟨9, 10, by decide, by decide⟩⟩

/-- An entity map whose intent candidates are not sorted by confidence:
the first clears the threshold with 4/5, the second with 9/10. -/
def nlp3 : NlpEntities := { intent := some [cand_a, cand_b] }

/-- An entity map classifying as `view_facts` with confidence 9/10. -/
def nlpView : NlpEntities :=
  { intent := some [⟨"view_facts", ⟨9, 10, by decide, by decide⟩⟩] }

/-- A conversation state whose draft fact carries a datetime
`last_seen` (as any draft loaded from a stored fact does). -/
def cs5 : ConvoState :=
  { user_id := 1,
    tmp_fact := { id := some 7, user_id := some 1, question := some "Q",
                  answer := some "A", confidence := some 3,
                  last_seen := .dt "2020-01-02T03:04:05" },
    state := .CONFIRM_FACT_DELETE }

/-- User 1 waiting to be asked a fact question. -/
def csW7 : ConvoState :=
  { user_id := 1, tmp_fact := Fact_new 1, state := .WAITING_FOR_FACT_QUESTION }

/-- The snapshot `handle_event` produces from `csW7` on message "m". -/
def csW7' : ConvoState :=
  { user_id := 1,
    tmp_fact := { user_id := some 1, question := some "m" },
    state := .WAITING_FOR_FACT_ANSWER }

/-- The full step result `handle_event` produces from `csW7` on "m". -/
def resW7 : StepResult :=
  { bot_msg := "Thanks, what's the answer to that question?",
    convo := csW7',
    store := stW,
    cache_writes := [{ key := "s1", payload := ConvoState.serialize csW7', ttl := 300 }] }

/-- An entity map classifying as `add_fact` with confidence 9/10. -/
def nlpAdd : NlpEntities :=
  { intent := some [⟨"add_fact", ⟨9, 10, by decide, by decide⟩⟩] }

/-- The step result a DEFAULT-state `add_fact` event produces for
user 1. -/
def resAdd : StepResult :=
  { bot_msg := "Ok, let's add that new fact. What is the question?",
    convo := csW7,
    store := stW,
    cache_writes := [{ key := "s1", payload := ConvoState.serialize csW7, ttl := 300 }] }

/-!  Theorems. -/

/-- The threshold constant is the source's 0.7. -/
theorem MIN_CONFIDENCE_THRESHOLD_eq : MIN_CONFIDENCE_THRESHOLD = 7 / 10 := by
  rw [MIN_CONFIDENCE_THRESHOLD, Rat.mk'_eq_divInt, Rat.divInt_eq_div]
  norm_num

/-- Looking a `State` up by its own enum value returns it. -/
theorem State.ofValue_value (st : State) : State.ofValue st.value = some st := by
  cases st <;> rfl

/-- A row produced by `one_or_none` was in the query result. -/
theorem one_or_none_mem {α : Type} {l : List α} {x : α}
    (h : one_or_none l = some (some x)) : x ∈ l := by
  match l with
  | [] => simp [one_or_none] at h
  | [a] =>
    simp only [one_or_none, Option.some_inj] at h
    rw [← h]
    exact List.mem_singleton_self a
  | a :: b :: t => simp [one_or_none] at h

/-- C6: for a known sender whose cache entry is absent (redis reports an
expired entry as absent), the restored `ConvoState` is `DEFAULT` with an
empty draft fact, its user id taken from the store's `users` row — no
cached data is consulted. -/
theorem cache_miss_rebuilds_default (u : UserRec) :
    restore_convo_state none (some u) =
      some { user_id := u.id, tmp_fact := Fact_new u.id, state := State.DEFAULT } := rfl

/-- C5 counterexample: a `ConvoState` whose draft `last_seen` is a
datetime does not round-trip — the datetime comes back as its ISO
string, which is a different value. -/
theorem serialize_roundtrip_last_seen_cx :
    (restore_cached (ConvoState.serialize cs5)).map (fun c => c.tmp_fact.last_seen) =
      some (LastSeen.str "2020-01-02T03:04:05") ∧
    cs5.tmp_fact.last_seen = LastSeen.dt "2020-01-02T03:04:05" ∧
    LastSeen.str "2020-01-02T03:04:05" ≠ LastSeen.dt "2020-01-02T03:04:05" :=
  ⟨rfl, rfl, by decide⟩

/-- C5 amended: serializing a `ConvoState` to the cache and
deserializing it preserves the state, the user id and the draft's id,
user_id, question, answer and confidence; `last_seen` is preserved only
when it is not a datetime — a datetime value comes back as its
ISO-format string and a plain string comes back as null. -/
theorem serialize_roundtrip_amended (cs : ConvoState) :
    restore_cached (ConvoState.serialize cs) = some
      { user_id := cs.user_id,
        state := cs.state,
        tmp_fact :=
          { id := cs.tmp_fact.id, user_id := cs.tmp_fact.user_id,
            question := cs.tmp_fact.question, answer := cs.tmp_fact.answer,
            confidence := cs.tmp_fact.confidence,
            last_seen := match cs.tmp_fact.last_seen with
              | .dt iso => .str iso
              | _ => .null } } := by
  obtain ⟨u, ⟨i, uu, q, a, c, l⟩, st⟩ := cs
  cases st <;> cases l <;> rfl

/-- C2: `get_fact` interprets the message as a numeric id first and only
falls back to an exact question-text match when the numeric parse
fails; both lookups are filtered by the current user's id, so any
returned fact belongs to that user. -/
theorem get_fact_scoped_and_id_first (u : Nat) (msg : String) (store : Store)
    (f : StoredFact) (h : get_fact u msg store = some (some f)) :
    f.user_id = u ∧
    (match py_int msg with
     | some i => (f.id : Int) = i
     | none => f.question = some msg) := by
  unfold get_fact at h
  cases hp : py_int msg with
  | some i =>
    rw [hp] at h
    have hm := one_or_none_mem h
    rw [List.mem_filter] at hm
    obtain ⟨-, hpred⟩ := hm
    simp only [Bool.and_eq_true, beq_iff_eq] at hpred
    simp only [hp]
    exact ⟨hpred.1, hpred.2⟩
  | none =>
    rw [hp] at h
    have hm := one_or_none_mem h
    rw [List.mem_filter] at hm
    obtain ⟨-, hpred⟩ := hm
    simp only [Bool.and_eq_true, beq_iff_eq] at hpred
    simp only [hp]
    exact ⟨hpred.1, hpred.2⟩

/-- C2 witness: on message "1", user 1 gets their fact with id 1. -/
theorem get_fact_scoped_and_id_first_witness :
    (⟨1, 1, some "What is 2+2?", "4", some 3, "2020-01-01T00:00:00"⟩ : StoredFact).user_id = 1 ∧
    (match py_int "1" with
     | some i => (((⟨1, 1, some "What is 2+2?", "4", some 3,
         "2020-01-01T00:00:00"⟩ : StoredFact).id : Nat) : Int) = i
     | none => (⟨1, 1, some "What is 2+2?", "4", some 3,
         "2020-01-01T00:00:00"⟩ : StoredFact).question = some "1") :=
  get_fact_scoped_and_id_first 1 "1" stW _ (by decide)

/-- C3 counterexample: with intent candidates [("a", 4/5), ("b", 9/10)]
the code returns the first candidate "a", not the highest-confidence
candidate clearing the threshold, which the spec's rule would pick
("b"). -/
theorem strongest_intent_not_highest :
    get_strongest_intent nlp3 MIN_CONFIDENCE_THRESHOLD = some "a" ∧
    strongest_intent_spec nlp3 MIN_CONFIDENCE_THRESHOLD = "b" ∧
    ("a" : String) ≠ "b" :=
  ⟨by decide, by decide, by decide⟩

/-- C3 amended: intent classification looks only at the FIRST intent
candidate in the list: it returns that candidate's value exactly when
its confidence exceeds the 0.7 threshold, and the sentinel
"default_intent" when it does not (or when no intent entity is
present); candidates after the first are never considered. -/
theorem strongest_intent_first_candidate (e : NlpEntities) :
    (e.intent = none →
       get_strongest_intent e MIN_CONFIDENCE_THRESHOLD = some "default_intent") ∧
    (∀ c rest, e.intent = some (c :: rest) →
       (MIN_CONFIDENCE_THRESHOLD < c.confidence →
          get_strongest_intent e MIN_CONFIDENCE_THRESHOLD = some c.value) ∧
       (¬ MIN_CONFIDENCE_THRESHOLD < c.confidence →
          get_strongest_intent e MIN_CONFIDENCE_THRESHOLD = some "default_intent")) := by
  refine ⟨fun h => ?_, fun c rest h => ⟨fun hc => ?_, fun hc => ?_⟩⟩
  · simp [get_strongest_intent, h]
  · simp only [get_strongest_intent, h]
    rw [if_pos hc]
  · simp only [get_strongest_intent, h]
    rw [if_neg hc]

/-- C3 amended witness: at the concrete entity map `nlp3` the first
candidate clears the threshold and its value is returned. -/
theorem strongest_intent_first_candidate_witness :
    nlp3.intent = some (cand_a :: [cand_b]) ∧
    MIN_CONFIDENCE_THRESHOLD < cand_a.confidence ∧
    get_strongest_intent nlp3 MIN_CONFIDENCE_THRESHOLD = some cand_a.value :=
  ⟨rfl, by decide,
   ((strongest_intent_first_candidate nlp3).2 cand_a [cand_b] rfl).1 (by decide)⟩

/-- C9: the store layer rejects any fact whose confidence is present
and outside [0,5], leaving the store unchanged; a fact whose confidence
is absent or within [0,5] is not rejected on that ground (creation
succeeds whenever the remaining constraints — NOT NULL `user_id` and
`answer`, the `user_id → users.id` foreign key, the unique `question`
— are met). -/
theorem confidence_check_at_store (draft : Fact) (store : Store) (now_iso : String) :
    (∀ c : Int, draft.confidence = some c → (c < 0 ∨ 5 < c) →
       create_fact draft store now_iso = (false, store)) ∧
    ((draft.confidence = none ∨ ∃ c : Int, draft.confidence = some c ∧ 0 ≤ c ∧ c ≤ 5) →
       ∀ u a, draft.user_id = some u → draft.answer = some a →
         user_exists store u = true →
         question_conflict store draft.question = false →
         (create_fact draft store now_iso).1 = true) := by
  obtain ⟨i, uu, q, a, cf, l⟩ := draft
  constructor
  · rintro c rfl hout
    have hcf : check_confidence (some c) = false := by
      simp only [check_confidence, decide_eq_false_iff_not]
      omega
    cases uu <;> cases a <;> simp [create_fact, hcf]
  · rintro hok u a' rfl rfl hue hq
    have hcf : check_confidence cf = true := by
      rcases hok with h | ⟨c, rfl, h0, h5⟩
      · simp only at h
        rw [h]
        rfl
      · simp only [check_confidence, decide_eq_true_eq]
        exact ⟨h0, h5⟩
    simp only at hq
    simp [create_fact, hcf, hue, hq]

/-- C9 witness: confidence 9 is rejected with the store unchanged. -/
theorem confidence_check_at_store_witness :
    ((9 : Int) < 0 ∨ 5 < (9 : Int)) ∧
    create_fact { user_id := some 1, question := some "Q9", answer := some "A",
                  confidence := some 9 } stW "t" = (false, stW) :=
  ⟨Or.inr (by decide),
   (confidence_check_at_store
     { user_id := some 1, question := some "Q9", answer := some "A",
       confidence := some 9 } stW "t").1 9 rfl (Or.inr (by decide))⟩

/-- C8 (code bug evidence): the schema's real constraint is a global,
case-sensitive unique `question` column; the `(user_id, lower(question))`
index is non-unique.  So a second user is refused a question the first
user already holds (the claim allows it), while one user may hold the
same question in two case variants (the claim forbids it). -/
theorem question_uniqueness_divergence :
    (create_fact { user_id := some 2, question := some "What is 2+2?",
                   answer := some "4" } stW "t").1 = false ∧
    (create_fact { user_id := some 2, question := some "What is 2+2?",
                   answer := some "4" } stW "t").2 = stW ∧
    (create_fact { user_id := some 1, question := some "what is 2+2?",
                   answer := some "4" } stW "t").1 = true :=
  ⟨by decide, by decide, by decide⟩

/-- An update never changes the list of row ids, and a successful
update rewrites the current user's row with the given id to carry the
draft's question and answer. -/
theorem update_fact_spec (u : Nat) (draft : Fact) (n : Nat) (store : Store) :
    ((update_fact u draft n store).2.facts.map StoredFact.id =
       store.facts.map StoredFact.id) ∧
    ((update_fact u draft n store).1 = true →
      ∃ f a, f ∈ store.facts ∧ f.user_id = u ∧ f.id = n ∧
        draft.answer = some a ∧
        { f with question := draft.question, answer := a } ∈
          (update_fact u draft n store).2.facts) := by
  unfold update_fact
  split
  next f heq =>
    split
    next => exact ⟨rfl, by simp⟩
    next a ha =>
      split
      next => exact ⟨rfl, by simp⟩
      next hq =>
        have hmem := List.mem_filter.mp (by rw [heq]; exact List.mem_singleton_self f)
        have hpredB := hmem.2
        simp only [Bool.and_eq_true, beq_iff_eq] at hpredB
        constructor
        · rw [List.map_map]
          refine List.map_congr_left (fun gg _ => ?_)
          show (if gg.user_id == u && gg.id == n then
            ({ gg with question := draft.question, answer := a } : StoredFact) else gg).id = gg.id
          split <;> rfl
        · intro hsucc
          refine ⟨f, a, hmem.1, hpredB.1, hpredB.2, ha, ?_⟩
          have hm := List.mem_map_of_mem (fun gg : StoredFact =>
              if gg.user_id == u && gg.id == n then
                { gg with question := draft.question, answer := a } else gg) hmem.1
          simpa [hmem.2] using hm
  next => exact ⟨rfl, by simp⟩

/-- C4: `upsert_fact` creates a brand-new fact whenever the draft's
identifier is absent — a successful create appends exactly one row,
carrying the store's next id — and updates in place when the draft
carries a pre-existing (store-assigned, hence positive) identifier: the
list of row ids is unchanged, and on success the current user's row
with that id now carries the draft's question and answer. -/
theorem upsert_fact_update_vs_create (u : Nat) (draft : Fact) (store : Store)
    (now_iso : String) :
    ((upsert_fact u draft store now_iso none).1 = true →
       ∃ f : StoredFact, f.id = store.next_id ∧
         (upsert_fact u draft store now_iso none).2.facts = store.facts ++ [f]) ∧
    (∀ n : Nat, 0 < n →
       ((upsert_fact u draft store now_iso (some n)).2.facts.map StoredFact.id =
          store.facts.map StoredFact.id ∧
        ((upsert_fact u draft store now_iso (some n)).1 = true →
          ∃ f a, f ∈ store.facts ∧ f.user_id = u ∧ f.id = n ∧
            draft.answer = some a ∧
            { f with question := draft.question, answer := a } ∈
              (upsert_fact u draft store now_iso (some n)).2.facts))) := by
  constructor
  · intro hsucc
    have he : upsert_fact u draft store now_iso none = create_fact draft store now_iso := rfl
    rw [he] at hsucc ⊢
    obtain ⟨i, uu, q, a, cf, l⟩ := draft
    rcases uu with - | u'
    · rcases a with - | a'
      · simp only [create_fact] at hsucc
        exact absurd hsucc (by simp)
      · simp only [create_fact] at hsucc
        exact absurd hsucc (by simp)
    · rcases a with - | a'
      · simp only [create_fact] at hsucc
        exact absurd hsucc (by simp)
      · simp only [create_fact] at hsucc ⊢
        by_cases hcond :
          (user_exists store u' && check_confidence cf &&
            !question_conflict store q) = true
        · rw [if_pos hcond]
          exact ⟨_, rfl, rfl⟩
        · rw [if_neg (by simpa using hcond)] at hsucc
          exact absurd hsucc (by simp)
  · intro n hn
    have hb : (n != 0) = true := by
      simp only [bne_iff_ne, ne_eq]
      omega
    have he : upsert_fact u draft store now_iso (some n) = update_fact u draft n store := by
      simp only [upsert_fact, py_truthy_optnat, hb, if_true, Option.getD_some]
    rw [he]
    exact update_fact_spec u draft n store

/-- C4 witness: updating via the pre-existing id 1 keeps the row ids
unchanged and rewrites the stored fact's question and answer. -/
theorem upsert_fact_update_vs_create_witness :
    (0 : Nat) < 1 ∧
    ((upsert_fact 1 draft4 stW "t" (some 1)).2.facts.map StoredFact.id =
       stW.facts.map StoredFact.id) ∧
    ∃ f a, f ∈ stW.facts ∧ f.user_id = 1 ∧ f.id = 1 ∧
      draft4.answer = some a ∧
      { f with question := draft4.question, answer := a } ∈
        (upsert_fact 1 draft4 stW "t" (some 1)).2.facts :=
  ⟨by decide,
   ((upsert_fact_update_vs_create 1 draft4 stW "t").2 1 (by decide)).1,
   ((upsert_fact_update_vs_create 1 draft4 stW "t").2 1 (by decide)).2 (by decide)⟩

/-- C1: in state `CONFIRM_FACT_DELETE`, a confirmation word
(case-insensitive, yes/yea/yep/y) triggers the `delete_fact` mutation
on the draft's id, with the reply reporting success or failure of that
deletion; any other message leaves the store untouched and reports
failure; the next state is always `DEFAULT`. -/
theorem confirm_fact_delete_step (sender msg : String) (nlp : NlpEntities)
    (cs : ConvoState) (store : Store) (now : ℚ) (now_iso : String)
    (hst : cs.state = State.CONFIRM_FACT_DELETE) :
    ∃ res, handle_event sender msg nlp cs store now now_iso = some res ∧
      res.convo.state = State.DEFAULT ∧
      (py_lower msg ∈ CONFIRMATIONS →
        res.store = (delete_fact cs.user_id cs.tmp_fact.id store).2 ∧
        res.bot_msg = (if (delete_fact cs.user_id cs.tmp_fact.id store).1
                       then "Fact deleted successfully."
                       else "Failed to delete fact.")) ∧
      (py_lower msg ∉ CONFIRMATIONS →
        res.store = store ∧ res.bot_msg = "Failed to delete fact.") := by
  obtain ⟨u, tf, st⟩ := cs
  simp only at hst
  subst hst
  by_cases hc : py_lower msg ∈ CONFIRMATIONS
  · have he : handle_event sender msg nlp ⟨u, tf, State.CONFIRM_FACT_DELETE⟩ store now now_iso
        = some (confirm_result sender u
            (if (delete_fact u tf.id store).1
             then "Fact deleted successfully." else "Failed to delete fact.")
            (delete_fact u tf.id store).2) := by
      simp only [handle_event]
      rw [if_pos hc]
      rfl
    exact ⟨_, he, rfl, fun _ => ⟨rfl, rfl⟩, fun hn => absurd hc hn⟩
  · have he : handle_event sender msg nlp ⟨u, tf, State.CONFIRM_FACT_DELETE⟩ store now now_iso
        = some (confirm_result sender u "Failed to delete fact." store) := by
      simp only [handle_event]
      rw [if_neg hc]
      rfl
    exact ⟨_, he, rfl, fun hcc => absurd hcc hc, fun _ => ⟨rfl, rfl⟩⟩

/-- C1 witness: user 1 confirms with "YES" while the draft holds fact
id 1 (present in the store), and the step behaves as stated. -/
theorem confirm_fact_delete_step_witness :
    csW1.state = State.CONFIRM_FACT_DELETE ∧
    ∃ res, handle_event "s1" "YES" {} csW1 stW 0 "t" = some res ∧
      res.convo.state = State.DEFAULT ∧
      (py_lower "YES" ∈ CONFIRMATIONS →
        res.store = (delete_fact csW1.user_id csW1.tmp_fact.id stW).2 ∧
        res.bot_msg = (if (delete_fact csW1.user_id csW1.tmp_fact.id stW).1
                       then "Fact deleted successfully."
                       else "Failed to delete fact.")) ∧
      (py_lower "YES" ∉ CONFIRMATIONS →
        res.store = stW ∧ res.bot_msg = "Failed to delete fact.") :=
  ⟨rfl, confirm_fact_delete_step "s1" "YES" {} csW1 stW 0 "t" rfl⟩

/-- C10: every event processed in `CONFIRM_FACT_DELETE` — whatever the
message and the delete outcome — resets the draft to a fresh empty
fact carrying only the user id before the state returns to `DEFAULT`. -/
theorem confirm_fact_delete_resets_draft (sender msg : String) (nlp : NlpEntities)
    (cs : ConvoState) (store : Store) (now : ℚ) (now_iso : String)
    (hst : cs.state = State.CONFIRM_FACT_DELETE) :
    ∃ res, handle_event sender msg nlp cs store now now_iso = some res ∧
      res.convo.tmp_fact = Fact_new cs.user_id ∧
      res.convo.tmp_fact.id = none ∧
      res.convo.tmp_fact.question = none ∧
      res.convo.tmp_fact.answer = none ∧
      res.convo.tmp_fact.confidence = none ∧
      res.convo.tmp_fact.user_id = some cs.user_id ∧
      res.convo.state = State.DEFAULT := by
  obtain ⟨u, tf, st⟩ := cs
  simp only at hst
  subst hst
  by_cases hc : py_lower msg ∈ CONFIRMATIONS
  · have he : handle_event sender msg nlp ⟨u, tf, State.CONFIRM_FACT_DELETE⟩ store now now_iso
        = some (confirm_result sender u
            (if (delete_fact u tf.id store).1
             then "Fact deleted successfully." else "Failed to delete fact.")
            (delete_fact u tf.id store).2) := by
      simp only [handle_event]
      rw [if_pos hc]
      rfl
    exact ⟨_, he, rfl, rfl, rfl, rfl, rfl, rfl, rfl⟩
  · have he : handle_event sender msg nlp ⟨u, tf, State.CONFIRM_FACT_DELETE⟩ store now now_iso
        = some (confirm_result sender u "Failed to delete fact." store) := by
      simp only [handle_event]
      rw [if_neg hc]
      rfl
    exact ⟨_, he, rfl, rfl, rfl, rfl, rfl, rfl, rfl⟩

/-- C10 witness: user 1 answers "nope"; the draft is reset all the
same. -/
theorem confirm_fact_delete_resets_draft_witness :
    csW1.state = State.CONFIRM_FACT_DELETE ∧
    ∃ res, handle_event "s1" "nope" {} csW1 stW 0 "t" = some res ∧
      res.convo.tmp_fact = Fact_new csW1.user_id ∧
      res.convo.tmp_fact.id = none ∧
      res.convo.tmp_fact.question = none ∧
      res.convo.tmp_fact.answer = none ∧
      res.convo.tmp_fact.confidence = none ∧
      res.convo.tmp_fact.user_id = some csW1.user_id ∧
      res.convo.state = State.DEFAULT :=
  ⟨rfl, confirm_fact_delete_resets_draft "s1" "nope" {} csW1 stW 0 "t" rfl⟩

/-- C7 counterexample: an event in state DEFAULT classified as
`view_facts` performs no cache write at all, so the resulting
`ConvoState` is not persisted and no TTL is refreshed. -/
theorem persist_skipped_on_view_facts :
    (handle_event "s1" "show my facts" nlpView (ConvoState.init 1 none) stW 0 "t").map
      StepResult.cache_writes = some [] := by decide

/-- Every event processed in a state other than `DEFAULT` performs
exactly one cache write, under the sender id with the 300-second TTL
(helper for the C7 theorem). -/
theorem cache_write_non_default (sender msg : String) (nlp : NlpEntities)
    (cs : ConvoState) (store : Store) (now : ℚ) (now_iso : String) (res : StepResult)
    (hst : cs.state ≠ State.DEFAULT)
    (h : handle_event sender msg nlp cs store now now_iso = some res) :
    res.cache_writes = [{ key := sender, payload := ConvoState.serialize res.convo,
                          ttl := 300 }] := by
  obtain ⟨u, tf, st⟩ := cs
  simp only at hst
  cases st
  case DEFAULT => exact absurd rfl hst
  case WAITING_FOR_FACT_QUESTION =>
    simp only [handle_event] at h
    obtain rfl := Option.some.inj h
    rfl
  case WAITING_FOR_FACT_ANSWER =>
    simp only [handle_event] at h
    obtain rfl := Option.some.inj h
    rfl
  case WAITING_FOR_FACT_TO_CHANGE =>
    simp only [handle_event] at h
    split at h
    · exact Option.noConfusion h
    · obtain rfl := Option.some.inj h
      rfl
    · obtain rfl := Option.some.inj h
      rfl
  case WAITING_FOR_FACT_TO_DELETE =>
    simp only [handle_event] at h
    split at h
    · exact Option.noConfusion h
    · obtain rfl := Option.some.inj h
      rfl
    · obtain rfl := Option.some.inj h
      rfl
  case CONFIRM_FACT_DELETE =>
    simp only [handle_event] at h
    split at h
    · obtain rfl := Option.some.inj h
      rfl
    · obtain rfl := Option.some.inj h
      rfl
  case WAITING_FOR_SILENCE_DURATION =>
    simp only [handle_event] at h
    obtain rfl := Option.some.inj h
    rfl

/-- A DEFAULT-state event writes nothing on the greeting branch; a
non-greeting event writes exactly one entry with TTL 300 when its
intent lands in a persisting branch (`default_branch_persists`) and
nothing otherwise (helper for the C7 theorem). -/
theorem handle_default_writes (sender msg : String) (nlp : NlpEntities)
    (cs : ConvoState) (store : Store) (now : ℚ) (now_iso : String) (res : StepResult)
    (hst : cs.state = State.DEFAULT)
    (h : handle_event sender msg nlp cs store now now_iso = some res) :
    (msg_contains_greeting nlp MIN_CONFIDENCE_THRESHOLD = true → res.cache_writes = []) ∧
    (msg_contains_greeting nlp MIN_CONFIDENCE_THRESHOLD = false →
      ∀ si, get_strongest_intent nlp MIN_CONFIDENCE_THRESHOLD = some si →
        (default_branch_persists nlp si = true →
           res.cache_writes = [{ key := sender, payload := ConvoState.serialize res.convo,
                                 ttl := 300 }]) ∧
        (default_branch_persists nlp si = false → res.cache_writes = [])) := by
  obtain ⟨u, tf, st⟩ := cs
  simp only at hst
  subst hst
  simp only [handle_event] at h
  constructor
  · intro hgr
    rw [if_pos hgr] at h
    obtain rfl := Option.some.inj h
    rfl
  · intro hgr si hsi
    rw [if_neg (by simp [hgr])] at h
    split at h
    next heq =>
      rw [hsi] at heq
      exact Option.noConfusion heq
    next si' heq =>
      rw [hsi] at heq
      obtain rfl := Option.some.inj heq
      split at h
      · -- add_fact
        rename_i hpos
        rw [beq_iff_eq] at hpos
        subst hpos
        obtain rfl := Option.some.inj h
        exact ⟨fun _ => rfl, fun hnp => by simp [default_branch_persists] at hnp⟩
      · split at h
        · -- change_fact
          rename_i hpos
          rw [beq_iff_eq] at hpos
          subst hpos
          split at h
          · exact Option.noConfusion h
          · obtain rfl := Option.some.inj h
            exact ⟨fun _ => rfl, fun hnp => by simp [default_branch_persists] at hnp⟩
        · split at h
          · -- silence_studying
            rename_i hpos
            rw [beq_iff_eq] at hpos
            subst hpos
            split at h
            next d heqd =>
              split at h
              · -- duration present but equal to 0 (falsy)
                rename_i hd0
                obtain rfl := Option.some.inj h
                refine ⟨fun _ => rfl, fun hnp => ?_⟩
                simp [default_branch_persists, py_truthy_qopt, heqd, bne, hd0] at hnp
              · -- truthy duration: confirmation reply, no write
                rename_i hd0
                rw [Bool.not_eq_true] at hd0
                obtain rfl := Option.some.inj h
                refine ⟨fun hp => ?_, fun _ => rfl⟩
                simp [default_branch_persists, py_truthy_qopt, heqd, bne, hd0] at hp
            next heqd =>
              obtain rfl := Option.some.inj h
              refine ⟨fun _ => rfl, fun hnp => ?_⟩
              simp [default_branch_persists, py_truthy_qopt, heqd] at hnp
          · split at h
            · -- view_facts
              rename_i hpos
              rw [beq_iff_eq] at hpos
              subst hpos
              split at h
              · exact Option.noConfusion h
              · obtain rfl := Option.some.inj h
                exact ⟨fun hp => by simp [default_branch_persists] at hp, fun _ => rfl⟩
            · split at h
              · -- delete_fact
                rename_i hpos
                rw [beq_iff_eq] at hpos
                subst hpos
                split at h
                · exact Option.noConfusion h
                · obtain rfl := Option.some.inj h
                  exact ⟨fun _ => rfl, fun hnp => by simp [default_branch_persists] at hnp⟩
              · split at h
                · -- study_next_fact
                  rename_i hpos
                  rw [beq_iff_eq] at hpos
                  subst hpos
                  obtain rfl := Option.some.inj h
                  exact ⟨fun hp => by simp [default_branch_persists] at hp, fun _ => rfl⟩
                · split at h
                  · -- default_intent
                    rename_i hpos
                    rw [beq_iff_eq] at hpos
                    subst hpos
                    obtain rfl := Option.some.inj h
                    exact ⟨fun _ => rfl, fun hnp => by simp [default_branch_persists] at hnp⟩
                  · -- unrecognized intent value: falls through the chain
                    rename_i h1 h2 h3 h4 h5 h6 h7
                    simp only [Bool.not_eq_true] at h1 h2 h3 h4 h5 h6 h7
                    obtain rfl := Option.some.inj h
                    refine ⟨fun hp => ?_, fun _ => rfl⟩
                    simp [default_branch_persists, h1, h2, h3, h5, h7] at hp

/-- C7 amended: every event processed in a state other than `DEFAULT`
persists the resulting `ConvoState` to the cache under the sender id
with TTL 300 seconds (exactly one write); in `DEFAULT` the greeting
branch writes nothing, and a non-greeting event performs exactly one
TTL-300 write when its intent lands in the add_fact, change_fact,
delete_fact, default_intent or silence-without-truthy-duration branch
(`default_branch_persists`), and no write at all otherwise
(view_facts, silence with a truthy duration, study_next_fact,
unrecognized intent). -/
theorem persist_ttl_per_branch (sender msg : String) (nlp : NlpEntities)
    (cs : ConvoState) (store : Store) (now : ℚ) (now_iso : String) (res : StepResult)
    (h : handle_event sender msg nlp cs store now now_iso = some res) :
    (cs.state ≠ State.DEFAULT →
       res.cache_writes = [{ key := sender, payload := ConvoState.serialize res.convo,
                             ttl := 300 }]) ∧
    (cs.state = State.DEFAULT →
       (msg_contains_greeting nlp MIN_CONFIDENCE_THRESHOLD = true →
          res.cache_writes = []) ∧
       (msg_contains_greeting nlp MIN_CONFIDENCE_THRESHOLD = false →
         ∀ si, get_strongest_intent nlp MIN_CONFIDENCE_THRESHOLD = some si →
           (default_branch_persists nlp si = true →
              res.cache_writes = [{ key := sender,
                                    payload := ConvoState.serialize res.convo,
                                    ttl := 300 }]) ∧
           (default_branch_persists nlp si = false → res.cache_writes = []))) :=
  ⟨fun hne => cache_write_non_default sender msg nlp cs store now now_iso res hne h,
   fun hd => handle_default_writes sender msg nlp cs store now now_iso res hd h⟩

/-- C7 amended witness: a message in `WAITING_FOR_FACT_QUESTION`
produces exactly one cache write with TTL 300, and a DEFAULT-state
`add_fact` event (a persisting branch) does too. -/
theorem persist_ttl_per_branch_witness :
    csW7.state ≠ State.DEFAULT ∧
    resW7.cache_writes = [{ key := "s1", payload := ConvoState.serialize resW7.convo,
                            ttl := 300 }] ∧
    default_branch_persists nlpAdd "add_fact" = true ∧
    resAdd.cache_writes = [{ key := "s1", payload := ConvoState.serialize resAdd.convo,
                             ttl := 300 }] :=
  ⟨by decide,
   (persist_ttl_per_branch "s1" "m" {} csW7 stW 0 "t" resW7 rfl).1 (by decide),
   by decide,
   (((persist_ttl_per_branch "s1" "x" nlpAdd (ConvoState.init 1 none) stW 0 "t"
       resAdd rfl).2 rfl).2 (by decide) "add_fact" (by decide)).1 (by decide)⟩

end StudyBot
